import Mathlib

/-!
Verification development for the smarthome-platform SCADA bridge.

The definitions below are a shallow embedding of the Python sources:
  * `apps/backend/homes/scada_ws.py`  (class `WebSocket2Scada`)
  * `apps/backend/homes/scada.py`     (class `ScadaManager`)
  * `apps/backend/homes/scheduler.py` (class `Scheduler`)
  * `apps/backend/homes/services.py`  (`update_all_solar_automations`)
  * `apps/backend/homes/utils.py`     (`get_coords`, `get_solar_times`)

Network and thread effects are made explicit: every operation returns the
list of frames written to the websocket, and external HTTP lookups are
passed in as parameters describing their outcome.
-/

namespace SmartHome

/-- The opening brace character, written via its code point. -/
def lbrace : Char := Char.ofNat 123

/-- The closing brace character, written via its code point. -/
def rbrace : Char := Char.ofNat 125

/-- JSON values as they appear on the wire.  Numeric literals are modelled
as integers: no tag payload relevant to this development carries a
fractional number. -/
inductive Json where
  | null : Json
  | bool (b : Bool) : Json
  | num (n : Int) : Json
  | str (s : String) : Json
  | arr (xs : List Json) : Json
  | obj (fields : List (String × Json)) : Json

/-- JSON string escaping as `json.dumps` performs it for the characters that
can occur in this system's payloads. -/
def escapeChar (c : Char) : String :=
  if c == '"' then "\\\""
  else if c == '\\' then "\\\\"
  else if c == '\n' then "\\n"
  else if c == '\t' then "\\t"
  else if c == '\r' then "\\r"
  else String.singleton c

/-- Escape every character of a string for inclusion in a JSON literal. -/
def escapeString (s : String) : String :=
  String.join (s.data.map escapeChar)

mutual

/-- Serialize a JSON value the way Python's `json.dumps` does with default
separators (`", "` between items, `": "` after keys, insertion order kept). -/
def Json.encode : Json → String
  | .null => "null"
  | .bool b => cond b "true" "false"
  | .num n => toString n
  | .str s => "\"" ++ escapeString s ++ "\""
  | .arr xs => "[" ++ encodeItems xs ++ "]"
  | .obj fs => "\x7b" ++ encodeFields fs ++ "\x7d"

/-- Comma-separated encoding of array items. -/
def encodeItems : List Json → String
  | [] => ""
  | [x] => x.encode
  | x :: y :: xs => x.encode ++ ", " ++ encodeItems (y :: xs)

/-- Comma-separated encoding of object members. -/
def encodeFields : List (String × Json) → String
  | [] => ""
  | [(k, v)] => "\"" ++ escapeString k ++ "\": " ++ v.encode
  | (k, v) :: f :: fs =>
      "\"" ++ escapeString k ++ "\": " ++ v.encode ++ ", " ++ encodeFields (f :: fs)

end

/-- Whitespace as the JSON grammar defines it. -/
def isJsonWs (c : Char) : Bool :=
  c == ' ' || c == '\t' || c == '\n' || c == '\r'

/-- Drop leading JSON whitespace. -/
def skipWs : List Char → List Char
  | [] => []
  | c :: cs => if isJsonWs c then skipWs cs else c :: cs

/-- Value of one hexadecimal digit. -/
def hexVal (c : Char) : Option Nat :=
  if '0' ≤ c ∧ c ≤ '9' then some (c.toNat - '0'.toNat)
  else if 'a' ≤ c ∧ c ≤ 'f' then some (c.toNat - 'a'.toNat + 10)
  else if 'A' ≤ c ∧ c ≤ 'F' then some (c.toNat - 'A'.toNat + 10)
  else none

/-- Parse the body of a JSON string literal (the opening quote already
consumed), handling the escape sequences `json.loads` accepts. -/
def parseStringBody : Nat → List Char → Option (String × List Char)
  | 0, _ => none
  | _ + 1, [] => none
  | fuel + 1, c :: cs =>
    if c == '"' then some ("", cs)
    else if c == '\\' then
      match cs with
      | [] => none
      | e :: cs2 =>
        let step : Option (Char × List Char) :=
          if e == '"' then some ('"', cs2)
          else if e == '\\' then some ('\\', cs2)
          else if e == '/' then some ('/', cs2)
          else if e == 'n' then some ('\n', cs2)
          else if e == 't' then some ('\t', cs2)
          else if e == 'r' then some ('\r', cs2)
          else if e == 'b' then some (Char.ofNat 8, cs2)
          else if e == 'f' then some (Char.ofNat 12, cs2)
          else if e == 'u' then
            match cs2 with
            | h1 :: h2 :: h3 :: h4 :: cs3 =>
              match hexVal h1, hexVal h2, hexVal h3, hexVal h4 with
              | some a, some b, some c3, some d =>
                  some (Char.ofNat (((a * 16 + b) * 16 + c3) * 16 + d), cs3)
              | _, _, _, _ => none
            | _ => none
          else none
        match step with
        | none => none
        | some (ch, rest) =>
          match parseStringBody fuel rest with
          | none => none
          | some (s, rest2) => some (String.singleton ch ++ s, rest2)
    else
      match parseStringBody fuel cs with
      | none => none
      | some (s, rest) => some (String.singleton c ++ s, rest)

/-- Parse a maximal run of decimal digits, accumulating their value. -/
def parseDigits : List Char → Nat → Nat × List Char
  | [], acc => (acc, [])
  | c :: cs, acc =>
    if '0' ≤ c ∧ c ≤ '9' then parseDigits cs (acc * 10 + (c.toNat - '0'.toNat))
    else (acc, c :: cs)

/-- Does the character start a digit? -/
def isDigitChar (c : Char) : Bool := decide ('0' ≤ c ∧ c ≤ '9')

mutual

/-- Parse one JSON value.  Mirrors `json.loads` except that a number with a
fractional part or exponent is rejected rather than read as a float. -/
def parseValue : Nat → List Char → Option (Json × List Char)
  | 0, _ => none
  | fuel + 1, cs =>
    match skipWs cs with
    | [] => none
    | c :: rest =>
      if c == '"' then
        match parseStringBody (fuel + 1) rest with
        | none => none
        | some (s, r) => some (Json.str s, r)
      else if c == '[' then
        match skipWs rest with
        | ']' :: r => some (Json.arr [], r)
        | r => parseElems fuel r []
      else if c == lbrace then
        match skipWs rest with
        | d :: r => if d == rbrace then some (Json.obj [], r) else parseMembers fuel (d :: r) []
        | [] => none
      else if c == 'n' then
        match rest with
        | 'u' :: 'l' :: 'l' :: r => some (Json.null, r)
        | _ => none
      else if c == 't' then
        match rest with
        | 'r' :: 'u' :: 'e' :: r => some (Json.bool true, r)
        | _ => none
      else if c == 'f' then
        match rest with
        | 'a' :: 'l' :: 's' :: 'e' :: r => some (Json.bool false, r)
        | _ => none
      else if c == '-' then
        match rest with
        | d :: r =>
          if isDigitChar d then
            let (n, r2) := parseDigits r (d.toNat - '0'.toNat)
            match r2 with
            | x :: _ => if x == '.' || x == 'e' || x == 'E' then none
                        else some (Json.num (-(n : Int)), r2)
            | [] => some (Json.num (-(n : Int)), [])
          else none
        | [] => none
      else if isDigitChar c then
        let (n, r2) := parseDigits rest (c.toNat - '0'.toNat)
        match r2 with
        | x :: _ => if x == '.' || x == 'e' || x == 'E' then none
                    else some (Json.num (n : Int), r2)
        | [] => some (Json.num (n : Int), [])
      else none

/-- Parse the remaining items of a non-empty array (after `[`). -/
def parseElems : Nat → List Char → List Json → Option (Json × List Char)
  | 0, _, _ => none
  | fuel + 1, cs, acc =>
    match parseValue fuel cs with
    | none => none
    | some (v, rest) =>
      match skipWs rest with
      | ',' :: r => parseElems fuel r (acc ++ [v])
      | ']' :: r => some (Json.arr (acc ++ [v]), r)
      | _ => none

/-- Parse the remaining members of a non-empty object (after the opening
brace). -/
def parseMembers : Nat → List Char → List (String × Json) → Option (Json × List Char)
  | 0, _, _ => none
  | fuel + 1, cs, acc =>
    match skipWs cs with
    | '"' :: r =>
      match parseStringBody fuel r with
      | none => none
      | some (k, r2) =>
        match skipWs r2 with
        | ':' :: r3 =>
          match parseValue fuel r3 with
          | none => none
          | some (v, r4) =>
            match skipWs r4 with
            | ',' :: r5 => parseMembers fuel r5 (acc ++ [(k, v)])
            | d :: r5 => if d == rbrace then some (Json.obj (acc ++ [(k, v)]), r5) else none
            | [] => none
        | _ => none
    | _ => none

end

/-- `json.loads`: parse a complete JSON document, requiring the whole input
to be consumed (up to trailing whitespace). -/
def jsonLoads (s : String) : Option Json :=
  match parseValue (4 * (s.length + 4)) s.data with
  | none => none
  | some (v, rest) => if (skipWs rest).isEmpty then some v else none

/-- Field lookup on a parsed object, keeping the last occurrence of a
duplicated key as Python's `dict` does. -/
def getField (fs : List (String × Json)) (k : String) : Option Json :=
  (fs.filterMap fun p => if p.1 == k then some p.2 else none).getLast?

/-- Prefix test on character lists. -/
def charsStartWith : List Char → List Char → Bool
  | _, [] => true
  | [], _ :: _ => false
  | h :: hs, n :: ns => h == n && charsStartWith hs ns

/-- Substring occurrence on character lists. -/
def charsContain : List Char → List Char → Bool
  | [], needle => needle.isEmpty
  | h :: hs, needle => charsStartWith (h :: hs) needle || charsContain hs needle

/-- Substring test (`needle in hay` for Python strings). -/
def strContains (hay needle : String) : Bool :=
  charsContain hay.data needle.data

/-- Python `s.lower()` (ASCII case folding suffices for this system's
day names and boolean words). -/
def pyLower (s : String) : String :=
  ⟨s.data.map Char.toLower⟩

/-- Python `s.strip()` for the whitespace `float()` tolerates. -/
def pyStrip (s : String) : List Char :=
  ((s.data.dropWhile isJsonWs).reverse.dropWhile isJsonWs).reverse

/-- Split a character list on a separator character. -/
def splitOnChar (d : Char) : List Char → List (List Char)
  | [] => [[]]
  | c :: cs =>
    let r := splitOnChar d cs
    if c == d then [] :: r
    else
      match r with
      | [] => [[c]]
      | g :: gs => (c :: g) :: gs

/-- Join strings with a dot. -/
def joinDot : List String → String
  | [] => ""
  | [x] => x
  | x :: y :: xs => x ++ "." ++ joinDot (y :: xs)

/-! ## The transport: `WebSocket2Scada` (scada_ws.py)

State of one `WebSocket2Scada` instance.  The `_ws` and `_thread` object
fields are modelled by whether the object is present; network writes are
returned explicitly as the list of frames handed to `self._ws.send`. -/

/-- The fields of a `WebSocket2Scada` instance (`__init__`). -/
structure ScadaWs where
  target : String
  login : String
  password : String
  /-- `self.token`; `none` models Python `None`. -/
  token : Option String
  tags : List String
  /-- whether an `on_tag` callback was supplied -/
  hasCallback : Bool
  verify_tls : Bool
  /-- whether `self._ws` is set (the `WebSocketApp` object exists) -/
  ws : Bool
  /-- whether `self._thread` is set -/
  thread : Bool
  /-- `self._connected` -/
  connected : Bool
deriving DecidableEq

/-- Outcome of the broker's two HTTP authentication endpoints, which are
external collaborators: whether the liveness probe of the cached token
returns 200, and the token field of a successful login response (`none`
models any failing login: non-200 status, missing token, or an exception). -/
structure AuthEnv where
  tokenAccepted : Bool
  loginResult : Option String

/-- Python truthiness of `self.token` (`if not self.token`). -/
def tokenFalsy (t : Option String) : Bool :=
  match t with
  | none => true
  | some s => s.data.isEmpty

namespace ScadaWs

/-- `_check_token`: `False` for an absent/empty token, otherwise whether the
broker's userinfo probe answered 200 (an exception also yields `False`). -/
def check_token (env : AuthEnv) (s : ScadaWs) : Bool :=
  if tokenFalsy s.token then false else env.tokenAccepted

/-- `_login`: on success caches the returned token; on any failure (non-200,
missing token, exception) the token ends up `None` and `False` is returned. -/
def doLogin (env : AuthEnv) (s : ScadaWs) : ScadaWs × Bool :=
  match env.loginResult with
  | some t => ({ s with token := some t }, true)
  | none => ({ s with token := none }, false)

/-- `_ensure_token`: reuse the cached token if still accepted, else log in. -/
def ensure_token (env : AuthEnv) (s : ScadaWs) : ScadaWs × Bool :=
  if check_token env s then (s, true) else doLogin env s

/-- `start`'s first statement: merge `extra_tags` into `self.tags` when the
argument is truthy (`list(set(self.tags + list(extra_tags)))`; Python's set
order is unspecified, modelled as left-to-right deduplication). -/
def mergeExtra (s : ScadaWs) (extra : List String) : ScadaWs :=
  if extra.isEmpty then s else { s with tags := (s.tags ++ extra).eraseDups }

/-- `start`: merge extra tags, ensure a token (returning `False` on auth
failure), then create the `WebSocketApp`, mark `self._connected = True` and
launch the background thread.  The flag is set before any handshake has
happened; the streaming connection is opened asynchronously by the thread. -/
def start (env : AuthEnv) (s : ScadaWs) (extra : List String) : Bool × ScadaWs :=
  let r := ensure_token env (mergeExtra s extra)
  if r.2 then (true, { r.1 with ws := true, thread := true, connected := true })
  else (false, r.1)

/-- `is_connected`. -/
def is_connected (s : ScadaWs) : Bool := s.connected

/-- The `_on_close` handler: it only clears `self._connected`; it sends no
frame and attempts no re-authentication or reconnection. -/
def on_close (s : ScadaWs) : ScadaWs × List String :=
  ({ s with connected := false }, [])

/-- The `_on_error` handler: it only logs. -/
def on_error (s : ScadaWs) : ScadaWs × List String := (s, [])

/-- `json.dumps({"type": "add_tags", "tags": tags})`. -/
def addTagsMessage (tags : List String) : String :=
  Json.encode (.obj [("type", .str "add_tags"), ("tags", .arr (tags.map Json.str))])

/-- `json.dumps({"message": msg})`: wrap an already-serialized payload
string in the outer envelope and serialize again. -/
def wireWrap (msg : String) : String :=
  Json.encode (.obj [("message", .str msg)])

/-- The `_on_open` handler: if the stored tag set is non-empty, send the
double-encoded `add_tags` request for it.  The connected flag is untouched. -/
def on_open (s : ScadaWs) : ScadaWs × List String :=
  if s.tags.isEmpty then (s, [])
  else (s, [wireWrap (addTagsMessage s.tags)])

/-- `subscribe`: a no-op for a falsy argument; otherwise the new tags are
merged into `self.tags`, and whenever `self._ws` exists an `add_tags` frame
for the new tags is written — the connected flag is never consulted. -/
def subscribe (s : ScadaWs) (tags : List String) : ScadaWs × List String :=
  if tags.isEmpty then (s, [])
  else
    let s1 := { s with tags := (s.tags ++ tags).eraseDups }
    if s1.ws then (s1, [wireWrap (addTagsMessage tags)]) else (s1, [])

/-- `{"type": "set_tag", "tag": tag, "value": value}`. -/
def setTagPayload (tag : String) (v : Json) : Json :=
  .obj [("type", .str "set_tag"), ("tag", .str tag), ("value", v)]

/-- `send_value`: raises `RuntimeError("WebSocket not started")` when
`self._ws` is `None`; otherwise hands one double-encoded frame to the
websocket and returns.  No check of `self._connected` is performed. -/
def send_value (s : ScadaWs) (tag : String) (v : Json) :
    Except String (ScadaWs × List String) :=
  if s.ws then .ok (s, [wireWrap (Json.encode (setTagPayload tag v))])
  else .error "WebSocket not started"

/-- `close`: clears the connected flag and drops the websocket and thread
objects. -/
def close (s : ScadaWs) : ScadaWs :=
  { s with connected := false, ws := false, thread := false }

end ScadaWs

/-! ### The receive handler `_on_message` -/

/-- The Python exceptions the receive handler can meet. -/
inductive PyExc where
  | jsonDecodeError
  | typeError
  | attributeError
deriving DecidableEq

/-- The envelope-unwrapping step of `_on_message`: `"message" in envelope
and isinstance(envelope["message"], str)` selects the inner document, which
is parsed again; otherwise the envelope itself is the payload.  Python
raises `TypeError` when `in` or indexing is applied to a non-container. -/
def envelopeToPayload (envelope : Json) : Except PyExc Json :=
  match envelope with
  | .obj fs =>
    match getField fs "message" with
    | some (.str inner) =>
      match jsonLoads inner with
      | none => .error .jsonDecodeError
      | some payload => .ok payload
    | _ => .ok envelope
  | .arr xs =>
    if xs.any (fun j => match j with | .str s => s == "message" | _ => false)
    then .error .typeError
    else .ok (.arr xs)
  | .str s =>
    if strContains s "message" then .error .typeError else .ok (.str s)
  | _ => .error .typeError

/-- Observable outcome of one `_on_message` call.  Every constructor is a
normal return of the handler: the outer `except Exception` swallows anything
the body raises, so no exception escapes into the receive loop. -/
inductive MsgResult where
  | parseFailureLogged
  | delivered (tag value at_ : Json)
  | settagResponseLogged
  | ignored
  | errorLogged

/-- `payload.get(k)` with Python's `None` for a missing key. -/
def pyGet (fs : List (String × Json)) (k : String) : Json :=
  (getField fs k).getD .null

/-- The `settag_response` branch of `_on_message`. -/
def settagBranch (fs : List (String × Json)) : MsgResult :=
  match getField fs "message_type" with
  | some (.str m) => if m == "settag_response" then .settagResponseLogged else .ignored
  | _ => .ignored

/-- `_on_message`: parse the outer document, unwrap the inner one, and
dispatch on the payload's discriminant.  A `json.JSONDecodeError` from
either parse is logged and the handler returns; any other exception is
caught by the outer handler and logged. -/
def on_message (hasCallback : Bool) (message : String) : MsgResult :=
  match jsonLoads message with
  | none => .parseFailureLogged
  | some envelope =>
    match envelopeToPayload envelope with
    | .error .jsonDecodeError => .parseFailureLogged
    | .error _ => .errorLogged
    | .ok payload =>
      match payload with
      | .obj fs =>
        match getField fs "type" with
        | some (.str t) =>
          if t == "notify_tag" then
            if hasCallback then .delivered (pyGet fs "tag") (pyGet fs "value") (pyGet fs "time")
            else .ignored
          else settagBranch fs
        | _ => settagBranch fs
      | _ => .errorLogged

/-! ## The bridge: `ScadaManager` (scada.py) -/

/-- Python truthiness of a JSON value. -/
def pyTruthy (v : Json) : Bool :=
  match v with
  | .null => false
  | .bool b => b
  | .num n => decide (n ≠ 0)
  | .str s => !s.data.isEmpty
  | .arr xs => !xs.isEmpty
  | .obj fs => !fs.isEmpty

/-- Python `str(v)` for the values a tag payload can carry; containers are
approximated by their JSON text. -/
def pyStr (v : Json) : String :=
  match v with
  | .str s => s
  | .num n => toString n
  | .bool true => "True"
  | .bool false => "False"
  | .null => "None"
  | .arr xs => (Json.arr xs).encode
  | .obj fs => (Json.obj fs).encode

/-- Digits of a decimal run with their count, left to right. -/
def readDigits : List Char → Nat → Nat → Nat × Nat × List Char
  | [], acc, k => (acc, k, [])
  | c :: cs, acc, k =>
    if isDigitChar c then readDigits cs (acc * 10 + (c.toNat - '0'.toNat)) (k + 1)
    else (acc, k, c :: cs)

/-- Python `float(s)` on a string, for the sign/digits/point forms the tag
values use (exponent and infinity forms are out of this model's scope). -/
def parseFloatString (s : String) : Option Rat :=
  let cs := pyStrip s
  let signed : Bool × List Char :=
    match cs with
    | '-' :: r => (true, r)
    | '+' :: r => (false, r)
    | r => (false, r)
  let (ip, ik, rest) := readDigits signed.2 0 0
  let body : Option Rat :=
    match rest with
    | [] => if ik = 0 then none else some (ip : Rat)
    | '.' :: r =>
      let (fp, fk, r2) := readDigits r 0 0
      if r2.isEmpty ∧ 0 < ik + fk then some ((ip : Rat) + (fp : Rat) / ((10 : Rat) ^ fk))
      else none
    | _ => none
  body.map fun q => if signed.1 then -q else q

/-- `float(v)` on a non-`None` value: numbers and booleans convert, strings
are parsed, anything else raises (`none`). -/
def pyFloat (v : Json) : Option Rat :=
  match v with
  | .num n => some (n : Rat)
  | .bool b => some (if b then 1 else 0)
  | .str s => parseFloatString s
  | _ => none

/-- The `parse_float` helper of `handle_tag_update`: `None` and every
conversion failure collapse to `0.0`. -/
def parse_float (v : Json) : Rat :=
  match v with
  | .null => 0
  | _ => (pyFloat v).getD 0

/-- The `parse_bool` helper of `handle_tag_update`. -/
def parse_bool (v : Json) : Bool :=
  match v with
  | .null => false
  | .str s =>
    let l := pyLower s
    if l == "true" || l == "on" || l == "1" || l == "1.0" then true
    else if l == "false" || l == "off" || l == "0" || l == "0.0" then false
    else
      match parseFloatString s with
      | some q => decide (0 < q)
      | none => false
  | v => pyTruthy v

/-- Python `int(x)` on a float: truncation toward zero (`Int.div` is the
truncating division). -/
def intOfRat (q : Rat) : Int := q.num.tdiv (q.den : Int)

/-- Modelled from the spec: the subtype-specific attributes of a persisted
device record.  The Django model classes carrying them are not among the
staged sources; the variants and fields follow the spec's DeviceRecord and
the attribute accesses `handle_tag_update` performs (`hasattr` probes for
`lightbulb`, `airconditioner`, `fan`, `television`). -/
inductive DeviceKind where
  | lightbulb (colour : String) (brightness : Int)
  | airconditioner (temperature : Rat)
  | fan (speed : Int) (swing : Bool)
  | television (volume : Int) (channel : Int) (is_mute : Bool)
  | generic
deriving DecidableEq

/-- Modelled from the spec: a persisted device record, "attribute map plus
an `onoff`/power flag", addressed by its tag prefix (the `tag` and `is_on`
fields the bridge reads and writes). -/
structure DeviceRec where
  tag : String
  is_on : Bool
  kind : DeviceKind
deriving DecidableEq

/-- `Device.objects.filter(tag=device_tag).first()`. -/
def findByTag (store : List DeviceRec) (t : String) : Option DeviceRec :=
  store.find? (fun d => d.tag == t)

/-- Replace the first record with the given tag. -/
def updateFirst : List DeviceRec → String → DeviceRec → List DeviceRec
  | [], _, _ => []
  | d :: ds, t, d' => if d.tag == t then d' :: ds else d :: updateFirst ds t d'

/-- The attribute dispatch of `handle_tag_update`: given the tag's command
suffix and the inbound value, the updated record and whether any `.save()`
call is performed (child save, or the final `device.save()` when the
`onoff`/`on` branch set `saved`). -/
def applyCommand (command : String) (value : Json) (d : DeviceRec) : DeviceRec × Bool :=
  if command == "onoff" || command == "on" then
    ({ d with is_on := parse_bool value }, true)
  else
    match d.kind with
    | .lightbulb colour brightness =>
      if command == "Color" then
        if pyTruthy value then ({ d with kind := .lightbulb (pyStr value) brightness }, true)
        else (d, false)
      else if command == "Brightness" then
        ({ d with kind := .lightbulb colour (intOfRat (parse_float value)) }, true)
      else (d, false)
    | .airconditioner _ =>
      if command == "set_temp" then ({ d with kind := .airconditioner (parse_float value) }, true)
      else (d, false)
    | .fan speed swing =>
      if command == "speed" then ({ d with kind := .fan (intOfRat (parse_float value)) swing }, true)
      else if command == "shake" then ({ d with kind := .fan speed (parse_bool value) }, true)
      else (d, false)
    | .television vol ch mute =>
      if command == "volume" then ({ d with kind := .television (intOfRat (parse_float value)) ch mute }, true)
      else if command == "channel" then ({ d with kind := .television vol (intOfRat (parse_float value)) mute }, true)
      else if command == "mute" then ({ d with kind := .television vol ch (parse_bool value) }, true)
      else (d, false)
    | .generic => (d, false)

/-- `tag.rsplit('.', 1)` for a string containing a dot: the text before the
last dot and the suffix after it. -/
def rsplitDot (s : String) : String × String :=
  let parts := (splitOnChar '.' s.data).map fun l => (⟨l⟩ : String)
  (joinDot parts.dropLast, parts.getLastD "")

/-- The body of `handle_tag_update`'s `try` block: split the tag, look the
device up, dispatch the command, and persist.  `saveFails` models the
external store raising on `.save()`; `.error` is any exception the block
raises (it is caught and logged by the `except` clause).  A tag that is not
a string makes the `'.' in tag` test or `rsplit` raise. -/
def syncDevice (saveFails : Bool) (store : List DeviceRec) (tag value : Json) :
    Except PyExc (List DeviceRec) :=
  match tag with
  | .str t =>
    if t.data.contains '.' then
      let (device_tag, command) := rsplitDot t
      match findByTag store device_tag with
      | none => .ok store
      | some d =>
        let (d', saves) := applyCommand command value d
        if saves then
          if saveFails then .error .attributeError
          else .ok (updateFirst store device_tag d')
        else .ok store
    else .ok store
  | .arr xs =>
    if xs.any (fun j => match j with | .str s => s == "." | _ => false)
    then .error .attributeError
    else .ok store
  | .obj fs =>
    if fs.any (fun p => p.1 == ".") then .error .attributeError else .ok store
  | _ => .error .typeError

/-- The event `handle_tag_update` hands to
`channel_layer.group_send("homes_group", ...)` before anything else. -/
structure BroadcastEvent where
  type : String
  tag : Json
  value : Json
  timestamp : Json

/-- What became of the persistence attempt. -/
inductive SyncResult where
  | updated (store : List DeviceRec)
  | caughtLogged (store : List DeviceRec)

/-- `ScadaManager.handle_tag_update`: the raw update is broadcast to the
`homes_group` first, unconditionally; the store synchronisation runs inside
`try`/`except`, and an exception there is logged, leaving the store as it
was. -/
def handle_tag_update (saveFails : Bool) (store : List DeviceRec)
    (tag value at_ : Json) : BroadcastEvent × SyncResult :=
  (⟨"scada_update", tag, value, at_⟩,
   match syncDevice saveFails store tag value with
   | .ok st => .updated st
   | .error _ => .caughtLogged store)

/-- The `ScadaManager` singleton's state: its (possibly absent) transport. -/
structure ScadaManagerState where
  client : Option ScadaWs

/-- Observable outcome of `ScadaManager.send_command`. -/
inductive CommandOutcome where
  /-- `send_value` ran: the frames it wrote -/
  | delivered (wire : List String)
  /-- `send_value` raised (`_ws` absent); nothing was caught, so it escapes -/
  | wsError
  /-- the transport is absent or reports not connected: logged and dropped -/
  | declinedLogged

/-- `ScadaManager.send_command`: forwards to `client.send_value` only when
the client exists and `is_connected()` holds; otherwise logs a decline.  No
queue or retry buffer exists — the manager state is returned unchanged on a
decline. -/
def send_command (m : ScadaManagerState) (tag : String) (v : Json) :
    ScadaManagerState × CommandOutcome :=
  match m.client with
  | some c =>
    if c.is_connected then
      match c.send_value tag v with
      | .ok (c', wire) => ({ client := some c' }, .delivered wire)
      | .error _ => (m, .wsError)
    else (m, .declinedLogged)
  | none => (m, .declinedLogged)

/-! ## The scheduler (scheduler.py) and solar recomputation (services.py) -/

/-- Days of the week, as `now.strftime('%a')` abbreviates them. -/
inductive Weekday where
  | mon | tue | wed | thu | fri | sat | sun
deriving DecidableEq

/-- `now.strftime('%a').lower()`. -/
def Weekday.abbrevLower : Weekday → String
  | .mon => "mon"
  | .tue => "tue"
  | .wed => "wed"
  | .thu => "thu"
  | .fri => "fri"
  | .sat => "sat"
  | .sun => "sun"

/-- A time of day, seconds included (`datetime.time` truncated to whole
seconds; the scheduler zeroes microseconds anyway). -/
structure TimeOfDay where
  hour : Nat
  minute : Nat
  second : Nat
deriving DecidableEq

/-- A point of the simulated wall clock: calendar date as an ordinal, its
weekday, and the time of day. -/
structure Instant where
  date : Nat
  weekday : Weekday
  time : TimeOfDay
deriving DecidableEq

/-- `now.time().replace(second=0, microsecond=0)`. -/
def truncMinute (i : Instant) : TimeOfDay :=
  ⟨i.time.hour, i.time.minute, 0⟩

/-- Modelled from the spec: a persisted automation, the spec's
`{id, deviceTag, triggerTime, repeatDays, solarAnchor?, actionPayload,
active}` record with the field names the scheduler and services read
(`is_active`, `time`, `repeat_days`, `action`, `sunrise_sunset`,
`solar_event`, and the device's `tag`).  The Django model class itself is
not among the staged sources. -/
structure Automation where
  title : String
  deviceName : String
  deviceTag : Option String
  time : TimeOfDay
  repeat_days : List String
  is_active : Bool
  action : List (String × Json)
  sunrise_sunset : Bool
  solar_event : Option String

/-- One scheduler tick's selection (`_run_loop` lines 108-111): the active
automations whose `time` equals the current minute-truncated clock, kept
when the lowercased current weekday occurs among the lowercased
`repeat_days`. -/
def tickSelection (autos : List Automation) (now : Instant) : List Automation :=
  (autos.filter fun a => a.is_active && (a.time == truncMinute now)).filter
    fun a => (a.repeat_days.map pyLower).contains now.weekday.abbrevLower

/-- The minute-aligned ticks of one simulated day of the given weekday. -/
def dayTicks (date : Nat) (w : Weekday) : List Instant :=
  (List.range 1440).map fun k => ⟨date, w, ⟨k / 60, k % 60, 0⟩⟩

/-- The action-key to tag-suffix table of `_execute_automation`. -/
def actionSuffix (key : String) : Option String :=
  if key == "is_on" then some ".onoff"
  else if key == "color" then some ".Color"
  else if key == "brightness" then some ".Brightness"
  else if key == "temp" then some ".set_temp"
  else if key == "speed" then some ".speed"
  else if key == "swing" then some ".shake"
  else if key == "volume" then some ".volume"
  else if key == "channel" then some ".channel"
  else if key == "is_mute" then some ".mute"
  else none

/-- `_execute_automation`: with no device tag nothing is sent; otherwise
each action pair with a known key yields one `send_command` call on the
full tag. -/
def automationCommands (a : Automation) : List (String × Json) :=
  match a.deviceTag with
  | none => []
  | some t =>
    if t.data.isEmpty then []
    else a.action.filterMap fun kv => (actionSuffix kv.1).map fun suf => (t ++ suf, kv.2)

/-- Observer coordinates from the geolocation collaborator. -/
structure Coords where
  lat : Rat
  lon : Rat

/-- Outcomes of the two external lookups a solar recomputation performs:
`get_coords()` (none models its `(None, None)` failure result) and the
sunrise-sunset service behind `get_solar_times` (none models a non-OK
status or an exception; both are caught inside `utils.py` and surface as
`None`). -/
structure LookupEnv where
  coords : Option Coords
  solar : Option (TimeOfDay × TimeOfDay)

/-- `services.update_all_solar_automations`: returns with the store
untouched when `get_coords` fails (`lat is None`) or `get_solar_times`
returns `None`; only with both lookups successful are the two filtered
updates applied, setting every `sunrise_sunset` automation's `time` to the
fetched sunrise or sunset according to its `solar_event`. -/
def update_all_solar_automations (env : LookupEnv) (autos : List Automation) :
    List Automation :=
  match env.coords with
  | none => autos
  | some _ =>
    match env.solar with
    | none => autos
    | some (sunrise, sunset) =>
      let step1 := autos.map fun a =>
        if a.sunrise_sunset && (a.solar_event == some "sunrise") then { a with time := sunrise } else a
      step1.map fun a =>
        if a.sunrise_sunset && (a.solar_event == some "sunset") then { a with time := sunset } else a

/-- The daily-recomputation guard of the scheduler loop (`_run_loop` lines
101-105): recompute and record the date only when the calendar date has
advanced past `last_solar_update`. -/
def schedulerSolarStep (env : LookupEnv) (lastSolarUpdate : Nat) (today : Nat)
    (autos : List Automation) : Nat × List Automation :=
  if lastSolarUpdate < today then (today, update_all_solar_automations env autos)
  else (lastSolarUpdate, autos)

/-! ## Concrete states used as witnesses and counterexamples -/

/-- A transport as `start()` leaves it: websocket object and thread exist,
connected flag set. -/
def wsStarted : ScadaWs where
  target := "171.102.128.142:6443"
  login := "bingo"
  password := "BPS12345"
  token := some "535a4d29f85c1c851eb81843ea89b951011ffd58"
  tags := []
  hasCallback := true
  verify_tls := false
  ws := true
  thread := true
  connected := true

/-- The same transport after its connection dropped: `_on_close` cleared
the flag but `_ws` is still set. -/
def wsDropped : ScadaWs := (ScadaWs.on_close wsStarted).1

/-- A started, connected transport holding a subscribed tag set. -/
def wsLive : ScadaWs :=
  { wsDropped with
      tags := ["passion.HueLight01.onoff", "passion.HueLight01.Brightness"]
      connected := true }

/-- A lightbulb device record matching the spec's example scenario. -/
def light01 : DeviceRec :=
  ⟨"passion.HueLight01", false, .lightbulb "#FFFFFF" 100⟩

/-- The spec's example automation: trigger 07:30, Mondays only, active. -/
def wake0730 : Automation where
  title := "wake"
  deviceName := "Lamp"
  deviceTag := some "passion.HueLight01"
  time := ⟨7, 30, 0⟩
  repeat_days := ["Mon"]
  is_active := true
  action := [("is_on", .bool true)]
  sunrise_sunset := false
  solar_event := none

/-- A sunrise-anchored automation. -/
def dawnAuto : Automation where
  title := "dawn"
  deviceName := "Lamp"
  deviceTag := some "passion.HueLight01"
  time := ⟨6, 0, 0⟩
  repeat_days := ["mon", "tue", "wed", "thu", "fri", "sat", "sun"]
  is_active := true
  action := [("is_on", .bool true)]
  sunrise_sunset := true
  solar_event := some "sunrise"

/-! ## The claims -/

/-- C1: the `_on_close` handler of the failing scenario — an unexpected
socket closure of a connected transport with a live tag set — only clears
the connected flag: it writes no frame, touches neither token nor tag set,
and performs no reconnection step.  (The implementation has no
`Reconnecting` state at all; `ScadaWs` carries only the boolean
`_connected`.) -/
theorem on_close_performs_no_reconnection :
    ScadaWs.on_close wsLive = ({ wsLive with connected := false }, []) ∧
    (ScadaWs.on_close wsLive).1.token = wsLive.token ∧
    (ScadaWs.on_close wsLive).1.tags = wsLive.tags ∧
    (ScadaWs.on_close wsLive).1.connected = false :=
  ⟨rfl, rfl, rfl, rfl⟩

/-- C2: while the transport is absent or reports not connected,
`ScadaManager.send_command` never reaches `send_value`: it returns the
manager state unchanged with only the logged decline — nothing is queued
and nothing is written. -/
theorem send_command_declined_when_not_connected
    (m : ScadaManagerState) (tag : String) (v : Json)
    (h : ∀ c, m.client = some c → c.connected = false) :
    send_command m tag v = (m, .declinedLogged) := by
  cases hm : m.client with
  | none => simp [send_command, hm]
  | some c => simp [send_command, hm, ScadaWs.is_connected, h c hm]

/-- Witness for C2: a manager whose transport has lost its connection
declines a command. -/
theorem send_command_declined_witness :
    send_command ⟨some wsDropped⟩ "passion.HueLight02.onoff" (.num 1) =
      (⟨some wsDropped⟩, .declinedLogged) :=
  send_command_declined_when_not_connected _ _ _
    (fun c hc => by cases hc; rfl)

/-- C3 counterexample: with the websocket object present but the connection
state not `Connected`, `send_value` does not fail — it performs the wire
write anyway.  The claimed `NotConnectedError` behavior does not exist. -/
theorem send_value_counterexample :
    wsDropped.connected = false ∧
    wsDropped.send_value "passion.HueLight02.onoff" (.num 1) =
      .ok (wsDropped,
        [ScadaWs.wireWrap (Json.encode (ScadaWs.setTagPayload "passion.HueLight02.onoff" (.num 1)))]) :=
  ⟨rfl, rfl⟩

/-- C3 amended: `send_value` raises (`RuntimeError("WebSocket not
started")`) exactly when the websocket object is absent; whenever the
object exists the call hands one frame to the outbound path and returns
immediately, regardless of the connected flag. -/
theorem send_value_guard (s : ScadaWs) (tag : String) (v : Json) :
    (s.ws = false → s.send_value tag v = .error "WebSocket not started") ∧
    (s.ws = true → s.send_value tag v =
      .ok (s, [ScadaWs.wireWrap (Json.encode (ScadaWs.setTagPayload tag v))])) := by
  constructor <;> intro h <;> simp [ScadaWs.send_value, h]

/-- Witness for C3's amended statement, at a closed transport and at a
started one. -/
theorem send_value_guard_witness :
    (ScadaWs.close wsDropped).send_value "a.b" .null = .error "WebSocket not started" ∧
    wsDropped.send_value "a.b" .null =
      .ok (wsDropped, [ScadaWs.wireWrap (Json.encode (ScadaWs.setTagPayload "a.b" .null))]) :=
  ⟨(send_value_guard (ScadaWs.close wsDropped) "a.b" .null).1 rfl,
   (send_value_guard wsDropped "a.b" .null).2 rfl⟩

/-- C4: `handle_tag_update` hands the raw update to the `homes_group`
broadcast before and regardless of any store interaction, and an exception
raised while persisting (here: any exception the `try` block raises) is
caught, leaving the store as it was — the broadcast still happened. -/
theorem handle_tag_update_always_broadcasts (f : Bool) (store : List DeviceRec)
    (tag v a : Json) :
    (handle_tag_update f store tag v a).1 = ⟨"scada_update", tag, v, a⟩ ∧
    (∀ e, syncDevice f store tag v = .error e →
      (handle_tag_update f store tag v a).2 = .caughtLogged store) := by
  refine ⟨rfl, fun e he => ?_⟩
  simp [handle_tag_update, he]

/-- Witness for C4: with the store's `.save()` raising, the update of a
matched device is caught and logged while the broadcast event is produced
unchanged. -/
theorem handle_tag_update_broadcast_witness :
    (handle_tag_update true [light01] (.str "passion.HueLight01.onoff")
        (.str "true") (.str "t0")).1 =
      ⟨"scada_update", .str "passion.HueLight01.onoff", .str "true", .str "t0"⟩ ∧
    (handle_tag_update true [light01] (.str "passion.HueLight01.onoff")
        (.str "true") (.str "t0")).2 = .caughtLogged [light01] :=
  ⟨(handle_tag_update_always_broadcasts true [light01] _ _ _).1,
   (handle_tag_update_always_broadcasts true [light01] _ _ _).2 .attributeError rfl⟩

/-- The double encoding as the spec words it: the inner payload is
JSON-serialized into a string, that string is the `message` field of an
outer envelope, and the envelope is JSON-serialized for transmission. -/
def specDoubleEncoded (payload : Json) : String :=
  Json.encode (.obj [("message", .str (Json.encode payload))])

/-- The spec's subscription payload. -/
def specAddTags (tags : List String) : Json :=
  .obj [("type", .str "add_tags"), ("tags", .arr (tags.map Json.str))]

/-- C5: every outbound frame — the initial subscription sent on open, a
later `subscribe`, and a `send_value` write — is the spec's double
encoding of the corresponding inner payload; concretely, a write of value
`1` to tag `a.b` produces the doubly-escaped wire text. -/
theorem outbound_frames_double_encoded (s : ScadaWs) (tags : List String)
    (tag : String) (v : Json) :
    (tags ≠ [] → s.ws = true →
      (s.subscribe tags).2 = [specDoubleEncoded (specAddTags tags)]) ∧
    (s.ws = true → s.send_value tag v =
      .ok (s, [specDoubleEncoded (ScadaWs.setTagPayload tag v)])) ∧
    (s.tags ≠ [] → (s.on_open).2 = [specDoubleEncoded (specAddTags s.tags)]) ∧
    specDoubleEncoded (ScadaWs.setTagPayload "a.b" (.num 1)) =
      "\x7b\"message\": \"\x7b\\\"type\\\": \\\"set_tag\\\", \\\"tag\\\": \\\"a.b\\\", \\\"value\\\": 1\x7d\"\x7d" := by
  refine ⟨fun h hw => ?_, fun hw => ?_, fun h => ?_, rfl⟩
  · have he : tags.isEmpty = false := by
      cases tags with
      | nil => exact absurd rfl h
      | cons x xs => rfl
    simp [ScadaWs.subscribe, he, hw, ScadaWs.wireWrap, ScadaWs.addTagsMessage,
      specDoubleEncoded, specAddTags]
  · simp [ScadaWs.send_value, hw, ScadaWs.wireWrap, specDoubleEncoded]
  · have he : s.tags.isEmpty = false := by
      cases hs : s.tags with
      | nil => exact absurd hs h
      | cons x xs => rfl
    simp [ScadaWs.on_open, he, ScadaWs.wireWrap, ScadaWs.addTagsMessage,
      specDoubleEncoded, specAddTags]

/-- Witness for C5 at the live transport. -/
theorem outbound_frames_witness :
    (wsLive.subscribe ["passion.HueLight02.onoff"]).2 =
      [specDoubleEncoded (specAddTags ["passion.HueLight02.onoff"])] ∧
    (wsLive.on_open).2 = [specDoubleEncoded (specAddTags wsLive.tags)] :=
  ⟨(outbound_frames_double_encoded wsLive ["passion.HueLight02.onoff"] "a.b" .null).1
      (by simp) rfl,
   (outbound_frames_double_encoded wsLive ["passion.HueLight02.onoff"] "a.b" .null).2.2.1
      (by simp [wsLive])⟩

/-- C6: an inbound frame that fails to parse as the outer JSON document, or
whose wrapped `message` string fails to parse as the inner document, makes
`_on_message` log the decode failure and return: the `on_tag` callback is
not invoked (the result is the logged drop, not a delivery) and no
exception escapes — every input yields a normal `MsgResult`. -/
theorem malformed_message_dropped (cb : Bool) (msg : String) :
    (jsonLoads msg = none → on_message cb msg = .parseFailureLogged) ∧
    (∀ fs inner, jsonLoads msg = some (.obj fs) →
      getField fs "message" = some (.str inner) → jsonLoads inner = none →
      on_message cb msg = .parseFailureLogged) := by
  constructor
  · intro h
    simp [on_message, h]
  · intro fs inner h1 h2 h3
    simp [on_message, h1, envelopeToPayload, h2, h3]

/-- Witness for C6: a frame that is not JSON, and a well-formed envelope
wrapping a broken inner document, are both dropped with the logged parse
failure. -/
theorem malformed_message_dropped_witness :
    on_message true "nonsense" = .parseFailureLogged ∧
    on_message true "\x7b\"message\": \"oops\"\x7d" = .parseFailureLogged :=
  ⟨(malformed_message_dropped true "nonsense").1 rfl,
   (malformed_message_dropped true "\x7b\"message\": \"oops\"\x7d").2
      [("message", .str "oops")] "oops" rfl rfl rfl⟩

set_option maxRecDepth 8000 in
/-- C7: a scheduler tick executes an automation exactly when it is active,
its trigger time equals the clock truncated to the minute, and the
lowercased current weekday occurs among its lowercased repeat days; over
the 1440 minute-aligned ticks of a simulated Monday, the 07:30/`{Mon}`
automation fires exactly once — at 07:30 — and over a Tuesday it never
fires. -/
theorem tick_selection_characterisation :
    (∀ (autos : List Automation) (a : Automation) (now : Instant),
      a ∈ tickSelection autos now ↔
        a ∈ autos ∧ a.is_active = true ∧ a.time = truncMinute now ∧
        (a.repeat_days.map pyLower).contains now.weekday.abbrevLower = true) ∧
    tickSelection [wake0730] ⟨0, .mon, ⟨7, 30, 0⟩⟩ = [wake0730] ∧
    ((dayTicks 0 .mon).countP fun t => !(tickSelection [wake0730] t).isEmpty) = 1 ∧
    ((dayTicks 0 .tue).countP fun t => !(tickSelection [wake0730] t).isEmpty) = 0 := by
  refine ⟨fun autos a now => ?_, rfl, by decide, by decide⟩
  constructor
  · intro h
    rw [tickSelection, List.mem_filter, List.mem_filter] at h
    obtain ⟨⟨ha, hf⟩, hg⟩ := h
    rw [Bool.and_eq_true] at hf
    exact ⟨ha, hf.1, beq_iff_eq.mp hf.2, hg⟩
  · rintro ⟨ha, hact, htime, hdays⟩
    rw [tickSelection, List.mem_filter, List.mem_filter]
    exact ⟨⟨ha, by rw [Bool.and_eq_true]; exact ⟨hact, beq_iff_eq.mpr htime⟩⟩, hdays⟩

/-- C8: when the geolocation lookup or the sunrise/sunset lookup fails, a
solar recomputation leaves every automation's trigger time untouched (no
partial update), the scheduler still records the day as done, and no
further tick of that same day recomputes — whatever the lookups would
then return. -/
theorem solar_failure_keeps_schedule (env : LookupEnv)
    (h : env.coords = none ∨ env.solar = none) :
    (∀ autos, update_all_solar_automations env autos = autos) ∧
    (∀ last today autos, last < today →
      schedulerSolarStep env last today autos = (today, autos)) ∧
    (∀ (env2 : LookupEnv) (today : Nat) (autos2 : List Automation),
      schedulerSolarStep env2 today today autos2 = (today, autos2)) := by
  have hu : ∀ autos, update_all_solar_automations env autos = autos := by
    intro autos
    rcases h with h | h <;> simp [update_all_solar_automations, h]
    cases hc : env.coords <;> simp
  refine ⟨hu, fun last today autos hlt => ?_, fun env2 today autos2 => ?_⟩
  · simp [schedulerSolarStep, hlt, hu]
  · simp [schedulerSolarStep]

/-- Witness for C8: a failed pair of lookups leaves the sunrise automation
untouched and blocks any same-day retry. -/
theorem solar_failure_witness :
    update_all_solar_automations ⟨none, none⟩ [dawnAuto] = [dawnAuto] ∧
    schedulerSolarStep ⟨none, none⟩ 0 1 [dawnAuto] = (1, [dawnAuto]) ∧
    schedulerSolarStep ⟨some ⟨13, 100⟩, some (⟨6, 12, 0⟩, ⟨18, 30, 0⟩)⟩ 1 1 [dawnAuto] =
      (1, [dawnAuto]) :=
  ⟨(solar_failure_keeps_schedule ⟨none, none⟩ (Or.inl rfl)).1 [dawnAuto],
   (solar_failure_keeps_schedule ⟨none, none⟩ (Or.inl rfl)).2.1 0 1 [dawnAuto] (by decide),
   (solar_failure_keeps_schedule ⟨none, none⟩ (Or.inl rfl)).2.2 _ 1 [dawnAuto]⟩

/-- C9 counterexample: `subscribe` on a transport that is not connected is
not a no-op — the stored tag set is mutated, and because the websocket
object still exists, an `add_tags` frame is written to the wire. -/
theorem subscribe_counterexample :
    wsDropped.connected = false ∧
    (wsDropped.subscribe ["passion.HueLight04.onoff"]).1.tags ≠ wsDropped.tags ∧
    (wsDropped.subscribe ["passion.HueLight04.onoff"]).2 ≠ [] := by
  refine ⟨rfl, ?_, ?_⟩ <;> decide

/-- C9 amended: `subscribe` is a no-op only for an empty tag list;
otherwise, regardless of the connection state, the new tags are merged into
the stored tag set and the `add_tags` frame is written exactly when the
websocket object exists. -/
theorem subscribe_behaviour (s : ScadaWs) (tags : List String) :
    (tags = [] → s.subscribe tags = (s, [])) ∧
    (tags ≠ [] →
      (s.subscribe tags).1 = { s with tags := (s.tags ++ tags).eraseDups } ∧
      (s.subscribe tags).2 =
        if s.ws then [ScadaWs.wireWrap (ScadaWs.addTagsMessage tags)] else []) := by
  constructor
  · intro h
    simp [ScadaWs.subscribe, h]
  · intro h
    have he : tags.isEmpty = false := by
      cases tags with
      | nil => exact absurd rfl h
      | cons x xs => rfl
    cases hw : s.ws <;> simp [ScadaWs.subscribe, he, hw]

/-- Witness for C9's amended statement at the disconnected transport. -/
theorem subscribe_behaviour_witness :
    (wsDropped.subscribe ["passion.HueLight04.onoff"]).1 =
      { wsDropped with tags := ["passion.HueLight04.onoff"] } ∧
    (wsDropped.subscribe ["passion.HueLight04.onoff"]).2 =
      [ScadaWs.wireWrap (ScadaWs.addTagsMessage ["passion.HueLight04.onoff"])] := by
  have h := (subscribe_behaviour wsDropped ["passion.HueLight04.onoff"]).2 (by simp)
  exact ⟨h.1, by rw [h.2]; rfl⟩

/-- C10: `start` returns `True` exactly when a token was obtained, and in
that case `is_connected()` is already `True` — the flag is set before the
background thread can have opened the stream.  The handshake callback
`_on_open` never changes the flag; it is cleared only by the close
callback or an explicit `close()`. -/
theorem start_sets_connected_before_handshake (env : AuthEnv) (s : ScadaWs)
    (extra : List String) :
    ((ScadaWs.start env s extra).1 =
      (ScadaWs.ensure_token env (ScadaWs.mergeExtra s extra)).2) ∧
    ((ScadaWs.start env s extra).1 = true →
      (ScadaWs.start env s extra).2.is_connected = true) ∧
    (∀ t : ScadaWs, (ScadaWs.on_open t).1.connected = t.connected) ∧
    (∀ t : ScadaWs, (ScadaWs.on_close t).1.connected = false) ∧
    (∀ t : ScadaWs, (ScadaWs.close t).connected = false) := by
  refine ⟨?_, ?_, fun t => ?_, fun t => rfl, fun t => rfl⟩
  · by_cases h : (ScadaWs.ensure_token env (ScadaWs.mergeExtra s extra)).2 <;>
      simp [ScadaWs.start, h]
  · intro h1
    by_cases h : (ScadaWs.ensure_token env (ScadaWs.mergeExtra s extra)).2
    · simp [ScadaWs.start, ScadaWs.is_connected, h]
    · simp [ScadaWs.start, h] at h1
  · cases ht : t.tags.isEmpty <;> simp [ScadaWs.on_open, ht]

/-- Witness for C10: a fresh login succeeds, `start` reports `True`, and
the transport immediately reports connected although `_on_open` has not
run. -/
theorem start_connected_witness :
    (ScadaWs.start ⟨false, some "fresh"⟩ wsDropped []).1 = true ∧
    (ScadaWs.start ⟨false, some "fresh"⟩ wsDropped []).2.is_connected = true :=
  ⟨rfl, (start_sets_connected_before_handshake ⟨false, some "fresh"⟩ wsDropped []).2.1 rfl⟩

end SmartHome
